import Mathlib

/-!
Verification of the HTML → rich-text conversion core of `umya-spreadsheet`
(`src/helper/html.rs`): the DOM flattener `read_node`, the default
formatting-analysis policy `DataAnalysis`, the named-color table
`COLOR_MAP`, and the builder `make_rich_text`.

Machine strings are modelled by Lean `String` (Rust `to_uppercase` agrees
with `String.toUpper` on the ASCII data involved here), `f64` parsing by an
exact-rational decimal parser (IEEE rounding is immaterial to the claims),
and the `HashMap<String, String>` attribute maps by association lists
queried with `List.lookup` (the code only ever calls `.get`, so iteration
order is irrelevant).
-/

set_option maxRecDepth 10000

namespace UmyaHtml

/-- `HfdElement` from `src/helper/html.rs`: name, attribute map and class
list of one enclosing element.  The Rust `HashMap<String, String>` is
modelled as an association list queried by `List.lookup`. -/
structure HfdElement where
  name : String
  attributes : List (String × String)
  classes : List String
  deriving Repr, DecidableEq

/-- `HtmlFlatData` from `src/helper/html.rs`: one flat run, its text and the
outer-to-inner stack of enclosing elements. -/
structure HtmlFlatData where
  text : String := ""
  element : List HfdElement := []
  deriving Repr, DecidableEq

/-- `HfdElement::has_name`. -/
def HfdElement.has_name (e : HfdElement) (name : String) : Bool :=
  e.name = name

/-- `HfdElement::get_by_name_and_attribute`: the attribute's value if the
element bears the given name and has the attribute. -/
def HfdElement.get_by_name_and_attribute (e : HfdElement) (name attr : String) :
    Option String :=
  (e.attributes.lookup attr).bind fun v =>
    if e.name = name then some v else none

/-- `HfdElement::contains_class`. -/
def HfdElement.contains_class (e : HfdElement) (class' : String) : Bool :=
  e.classes.contains class'

/-- The parser's node type (`html_parser::Node`): text, element (name,
attributes with optional values, classes, children), or any other node kind
(comments etc.), which `read_node` ignores. -/
inductive Node where
  | text (s : String)
  | element (name : String) (attributes : List (String × Option String))
      (classes : List String) (children : List Node)
  | other
  deriving Repr

/-- Attribute conversion done by `read_node` when it builds an `HfdElement`:
`value.as_ref().map(|v| v.to_string()).unwrap_or_default()`. -/
def convAttributes (attrs : List (String × Option String)) : List (String × String) :=
  attrs.map fun kv => (kv.1, kv.2.getD "")

/-- State-explicit rendition of the loop in `read_node`
(`src/helper/html.rs`, lines 51–107).  `acc` is the text of the current
accumulator `data`; its element stack is always exactly `parent`, since the
code resets `data` to the inherited `parent_element` after every flush and
after every recursion into a child element. -/
def readNodes : List Node → List HfdElement → String → List HtmlFlatData
  | [], parent, acc =>
      if acc = "" then [] else [{ text := acc, element := parent }]
  | Node.text s :: rest, parent, acc =>
      readNodes rest parent (acc ++ s)
  | Node.element name attrs classes children :: rest, parent, acc =>
      if name = "br" then
        readNodes rest parent (acc ++ "\n")
      else
        (if acc = "" then [] else [{ text := acc, element := parent }])
          ++ readNodes children (parent ++ [⟨name, convAttributes attrs, classes⟩]) ""
          ++ readNodes rest parent ""
  | Node.other :: rest, parent, acc =>
      readNodes rest parent acc
termination_by ns _ _ => sizeOf ns
decreasing_by all_goals simp_wf <;> omega

/-- `read_node` from `src/helper/html.rs`: flatten a sibling list under an
inherited ancestor stack.  The accumulator starts empty. -/
def read_node (node_list : List Node) (parent_element : List HfdElement) :
    List HtmlFlatData :=
  readNodes node_list parent_element ""

/-- `COLOR_MAP` from `src/helper/html.rs`: the static named-color table,
transcribed verbatim. -/
def COLOR_MAP : List (String × String) := [
  ("aliceblue", "f0f8ff"),
  ("antiquewhite", "faebd7"),
  ("antiquewhite1", "ffefdb"),
  ("antiquewhite2", "eedfcc"),
  ("antiquewhite3", "cdc0b0"),
  ("antiquewhite4", "8b8378"),
  ("aqua", "00ffff"),
  ("aquamarine1", "7fffd4"),
  ("aquamarine2", "76eec6"),
  ("aquamarine4", "458b74"),
  ("azure1", "f0ffff"),
  ("azure2", "e0eeee"),
  ("azure3", "c1cdcd"),
  ("azure4", "838b8b"),
  ("beige", "f5f5dc"),
  ("bisque1", "ffe4c4"),
  ("bisque2", "eed5b7"),
  ("bisque3", "cdb79e"),
  ("bisque4", "8b7d6b"),
  ("black", "000000"),
  ("blanchedalmond", "ffebcd"),
  ("blue", "0000ff"),
  ("blue1", "0000ff"),
  ("blue2", "0000ee"),
  ("blue4", "00008b"),
  ("blueviolet", "8a2be2"),
  ("brown", "a52a2a"),
  ("brown1", "ff4040"),
  ("brown2", "ee3b3b"),
  ("brown3", "cd3333"),
  ("brown4", "8b2323"),
  ("burlywood", "deb887"),
  ("burlywood1", "ffd39b"),
  ("burlywood2", "eec591"),
  ("burlywood3", "cdaa7d"),
  ("burlywood4", "8b7355"),
  ("cadetblue", "5f9ea0"),
  ("cadetblue1", "98f5ff"),
  ("cadetblue2", "8ee5ee"),
  ("cadetblue3", "7ac5cd"),
  ("cadetblue4", "53868b"),
  ("chartreuse1", "7fff00"),
  ("chartreuse2", "76ee00"),
  ("chartreuse3", "66cd00"),
  ("chartreuse4", "458b00"),
  ("chocolate", "d2691e"),
  ("chocolate1", "ff7f24"),
  ("chocolate2", "ee7621"),
  ("chocolate3", "cd661d"),
  ("coral", "ff7f50"),
  ("coral1", "ff7256"),
  ("coral2", "ee6a50"),
  ("coral3", "cd5b45"),
  ("coral4", "8b3e2f"),
  ("cornflowerblue", "6495ed"),
  ("cornsilk1", "fff8dc"),
  ("cornsilk2", "eee8cd"),
  ("cornsilk3", "cdc8b1"),
  ("cornsilk4", "8b8878"),
  ("cyan1", "00ffff"),
  ("cyan2", "00eeee"),
  ("cyan3", "00cdcd"),
  ("cyan4", "008b8b"),
  ("darkgoldenrod", "b8860b"),
  ("darkgoldenrod1", "ffb90f"),
  ("darkgoldenrod2", "eead0e"),
  ("darkgoldenrod3", "cd950c"),
  ("darkgoldenrod4", "8b6508"),
  ("darkgreen", "006400"),
  ("darkkhaki", "bdb76b"),
  ("darkolivegreen", "556b2f"),
  ("darkolivegreen1", "caff70"),
  ("darkolivegreen2", "bcee68"),
  ("darkolivegreen3", "a2cd5a"),
  ("darkolivegreen4", "6e8b3d"),
  ("darkorange", "ff8c00"),
  ("darkorange1", "ff7f00"),
  ("darkorange2", "ee7600"),
  ("darkorange3", "cd6600"),
  ("darkorange4", "8b4500"),
  ("darkorchid", "9932cc"),
  ("darkorchid1", "bf3eff"),
  ("darkorchid2", "b23aee"),
  ("darkorchid3", "9a32cd"),
  ("darkorchid4", "68228b"),
  ("darksalmon", "e9967a"),
  ("darkseagreen", "8fbc8f"),
  ("darkseagreen1", "c1ffc1"),
  ("darkseagreen2", "b4eeb4"),
  ("darkseagreen3", "9bcd9b"),
  ("darkseagreen4", "698b69"),
  ("darkslateblue", "483d8b"),
  ("darkslategray", "2f4f4f"),
  ("darkslategray1", "97ffff"),
  ("darkslategray2", "8deeee"),
  ("darkslategray3", "79cdcd"),
  ("darkslategray4", "528b8b"),
  ("darkturquoise", "00ced1"),
  ("darkviolet", "9400d3"),
  ("deeppink1", "ff1493"),
  ("deeppink2", "ee1289"),
  ("deeppink3", "cd1076"),
  ("deeppink4", "8b0a50"),
  ("deepskyblue1", "00bfff"),
  ("deepskyblue2", "00b2ee"),
  ("deepskyblue3", "009acd"),
  ("deepskyblue4", "00688b"),
  ("dimgray", "696969"),
  ("dodgerblue1", "1e90ff"),
  ("dodgerblue2", "1c86ee"),
  ("dodgerblue3", "1874cd"),
  ("dodgerblue4", "104e8b"),
  ("firebrick", "b22222"),
  ("firebrick1", "ff3030"),
  ("firebrick2", "ee2c2c"),
  ("firebrick3", "cd2626"),
  ("firebrick4", "8b1a1a"),
  ("floralwhite", "fffaf0"),
  ("forestgreen", "228b22"),
  ("fuchsia", "ff00ff"),
  ("gainsboro", "dcdcdc"),
  ("ghostwhite", "f8f8ff"),
  ("gold1", "ffd700"),
  ("gold2", "eec900"),
  ("gold3", "cdad00"),
  ("gold4", "8b7500"),
  ("goldenrod", "daa520"),
  ("goldenrod1", "ffc125"),
  ("goldenrod2", "eeb422"),
  ("goldenrod3", "cd9b1d"),
  ("goldenrod4", "8b6914"),
  ("gray", "bebebe"),
  ("gray1", "030303"),
  ("gray10", "1a1a1a"),
  ("gray11", "1c1c1c"),
  ("gray12", "1f1f1f"),
  ("gray13", "212121"),
  ("gray14", "242424"),
  ("gray15", "262626"),
  ("gray16", "292929"),
  ("gray17", "2b2b2b"),
  ("gray18", "2e2e2e"),
  ("gray19", "303030"),
  ("gray2", "050505"),
  ("gray20", "333333"),
  ("gray21", "363636"),
  ("gray22", "383838"),
  ("gray23", "3b3b3b"),
  ("gray24", "3d3d3d"),
  ("gray25", "404040"),
  ("gray26", "424242"),
  ("gray27", "454545"),
  ("gray28", "474747"),
  ("gray29", "4a4a4a"),
  ("gray3", "080808"),
  ("gray30", "4d4d4d"),
  ("gray31", "4f4f4f"),
  ("gray32", "525252"),
  ("gray33", "545454"),
  ("gray34", "575757"),
  ("gray35", "595959"),
  ("gray36", "5c5c5c"),
  ("gray37", "5e5e5e"),
  ("gray38", "616161"),
  ("gray39", "636363"),
  ("gray4", "0a0a0a"),
  ("gray40", "666666"),
  ("gray41", "696969"),
  ("gray42", "6b6b6b"),
  ("gray43", "6e6e6e"),
  ("gray44", "707070"),
  ("gray45", "737373"),
  ("gray46", "757575"),
  ("gray47", "787878"),
  ("gray48", "7a7a7a"),
  ("gray49", "7d7d7d"),
  ("gray5", "0d0d0d"),
  ("gray50", "7f7f7f"),
  ("gray51", "828282"),
  ("gray52", "858585"),
  ("gray53", "878787"),
  ("gray54", "8a8a8a"),
  ("gray55", "8c8c8c"),
  ("gray56", "8f8f8f"),
  ("gray57", "919191"),
  ("gray58", "949494"),
  ("gray59", "969696"),
  ("gray6", "0f0f0f"),
  ("gray60", "999999"),
  ("gray61", "9c9c9c"),
  ("gray62", "9e9e9e"),
  ("gray63", "a1a1a1"),
  ("gray64", "a3a3a3"),
  ("gray65", "a6a6a6"),
  ("gray66", "a8a8a8"),
  ("gray67", "ababab"),
  ("gray68", "adadad"),
  ("gray69", "b0b0b0"),
  ("gray7", "121212"),
  ("gray70", "b3b3b3"),
  ("gray71", "b5b5b5"),
  ("gray72", "b8b8b8"),
  ("gray73", "bababa"),
  ("gray74", "bdbdbd"),
  ("gray75", "bfbfbf"),
  ("gray76", "c2c2c2"),
  ("gray77", "c4c4c4"),
  ("gray78", "c7c7c7"),
  ("gray79", "c9c9c9"),
  ("gray8", "141414"),
  ("gray80", "cccccc"),
  ("gray81", "cfcfcf"),
  ("gray82", "d1d1d1"),
  ("gray83", "d4d4d4"),
  ("gray84", "d6d6d6"),
  ("gray85", "d9d9d9"),
  ("gray86", "dbdbdb"),
  ("gray87", "dedede"),
  ("gray88", "e0e0e0"),
  ("gray89", "e3e3e3"),
  ("gray9", "171717"),
  ("gray90", "e5e5e5"),
  ("gray91", "e8e8e8"),
  ("gray92", "ebebeb"),
  ("gray93", "ededed"),
  ("gray94", "f0f0f0"),
  ("gray95", "f2f2f2"),
  ("gray97", "f7f7f7"),
  ("gray98", "fafafa"),
  ("gray99", "fcfcfc"),
  ("green", "00ff00"),
  ("green1", "00ff00"),
  ("green2", "00ee00"),
  ("green3", "00cd00"),
  ("green4", "008b00"),
  ("greenyellow", "adff2f"),
  ("honeydew1", "f0fff0"),
  ("honeydew2", "e0eee0"),
  ("honeydew3", "c1cdc1"),
  ("honeydew4", "838b83"),
  ("hotpink", "ff69b4"),
  ("hotpink1", "ff6eb4"),
  ("hotpink2", "ee6aa7"),
  ("hotpink3", "cd6090"),
  ("hotpink4", "8b3a62"),
  ("indianred", "cd5c5c"),
  ("indianred1", "ff6a6a"),
  ("indianred2", "ee6363"),
  ("indianred3", "cd5555"),
  ("indianred4", "8b3a3a"),
  ("ivory1", "fffff0"),
  ("ivory2", "eeeee0"),
  ("ivory3", "cdcdc1"),
  ("ivory4", "8b8b83"),
  ("khaki", "f0e68c"),
  ("khaki1", "fff68f"),
  ("khaki2", "eee685"),
  ("khaki3", "cdc673"),
  ("khaki4", "8b864e"),
  ("lavender", "e6e6fa"),
  ("lavenderblush1", "fff0f5"),
  ("lavenderblush2", "eee0e5"),
  ("lavenderblush3", "cdc1c5"),
  ("lavenderblush4", "8b8386"),
  ("lawngreen", "7cfc00"),
  ("lemonchiffon1", "fffacd"),
  ("lemonchiffon2", "eee9bf"),
  ("lemonchiffon3", "cdc9a5"),
  ("lemonchiffon4", "8b8970"),
  ("light", "eedd82"),
  ("lightblue", "add8e6"),
  ("lightblue1", "bfefff"),
  ("lightblue2", "b2dfee"),
  ("lightblue3", "9ac0cd"),
  ("lightblue4", "68838b"),
  ("lightcoral", "f08080"),
  ("lightcyan1", "e0ffff"),
  ("lightcyan2", "d1eeee"),
  ("lightcyan3", "b4cdcd"),
  ("lightcyan4", "7a8b8b"),
  ("lightgoldenrod1", "ffec8b"),
  ("lightgoldenrod2", "eedc82"),
  ("lightgoldenrod3", "cdbe70"),
  ("lightgoldenrod4", "8b814c"),
  ("lightgoldenrodyellow", "fafad2"),
  ("lightgray", "d3d3d3"),
  ("lightpink", "ffb6c1"),
  ("lightpink1", "ffaeb9"),
  ("lightpink2", "eea2ad"),
  ("lightpink3", "cd8c95"),
  ("lightpink4", "8b5f65"),
  ("lightsalmon1", "ffa07a"),
  ("lightsalmon2", "ee9572"),
  ("lightsalmon3", "cd8162"),
  ("lightsalmon4", "8b5742"),
  ("lightseagreen", "20b2aa"),
  ("lightskyblue", "87cefa"),
  ("lightskyblue1", "b0e2ff"),
  ("lightskyblue2", "a4d3ee"),
  ("lightskyblue3", "8db6cd"),
  ("lightskyblue4", "607b8b"),
  ("lightslateblue", "8470ff"),
  ("lightslategray", "778899"),
  ("lightsteelblue", "b0c4de"),
  ("lightsteelblue1", "cae1ff"),
  ("lightsteelblue2", "bcd2ee"),
  ("lightsteelblue3", "a2b5cd"),
  ("lightsteelblue4", "6e7b8b"),
  ("lightyellow1", "ffffe0"),
  ("lightyellow2", "eeeed1"),
  ("lightyellow3", "cdcdb4"),
  ("lightyellow4", "8b8b7a"),
  ("lime", "00ff00"),
  ("limegreen", "32cd32"),
  ("linen", "faf0e6"),
  ("magenta", "ff00ff"),
  ("magenta2", "ee00ee"),
  ("magenta3", "cd00cd"),
  ("magenta4", "8b008b"),
  ("maroon", "b03060"),
  ("maroon1", "ff34b3"),
  ("maroon2", "ee30a7"),
  ("maroon3", "cd2990"),
  ("maroon4", "8b1c62"),
  ("medium", "66cdaa"),
  ("mediumaquamarine", "66cdaa"),
  ("mediumblue", "0000cd"),
  ("mediumorchid", "ba55d3"),
  ("mediumorchid1", "e066ff"),
  ("mediumorchid2", "d15fee"),
  ("mediumorchid3", "b452cd"),
  ("mediumorchid4", "7a378b"),
  ("mediumpurple", "9370db"),
  ("mediumpurple1", "ab82ff"),
  ("mediumpurple2", "9f79ee"),
  ("mediumpurple3", "8968cd"),
  ("mediumpurple4", "5d478b"),
  ("mediumseagreen", "3cb371"),
  ("mediumslateblue", "7b68ee"),
  ("mediumspringgreen", "00fa9a"),
  ("mediumturquoise", "48d1cc"),
  ("mediumvioletred", "c71585"),
  ("midnightblue", "191970"),
  ("mintcream", "f5fffa"),
  ("mistyrose1", "ffe4e1"),
  ("mistyrose2", "eed5d2"),
  ("mistyrose3", "cdb7b5"),
  ("mistyrose4", "8b7d7b"),
  ("moccasin", "ffe4b5"),
  ("navajowhite1", "ffdead"),
  ("navajowhite2", "eecfa1"),
  ("navajowhite3", "cdb38b"),
  ("navajowhite4", "8b795e"),
  ("navy", "000080"),
  ("navyblue", "000080"),
  ("oldlace", "fdf5e6"),
  ("olive", "808000"),
  ("olivedrab", "6b8e23"),
  ("olivedrab1", "c0ff3e"),
  ("olivedrab2", "b3ee3a"),
  ("olivedrab4", "698b22"),
  ("orange", "ffa500"),
  ("orange1", "ffa500"),
  ("orange2", "ee9a00"),
  ("orange3", "cd8500"),
  ("orange4", "8b5a00"),
  ("orangered1", "ff4500"),
  ("orangered2", "ee4000"),
  ("orangered3", "cd3700"),
  ("orangered4", "8b2500"),
  ("orchid", "da70d6"),
  ("orchid1", "ff83fa"),
  ("orchid2", "ee7ae9"),
  ("orchid3", "cd69c9"),
  ("orchid4", "8b4789"),
  ("pale", "db7093"),
  ("palegoldenrod", "eee8aa"),
  ("palegreen", "98fb98"),
  ("palegreen1", "9aff9a"),
  ("palegreen2", "90ee90"),
  ("palegreen3", "7ccd7c"),
  ("palegreen4", "548b54"),
  ("paleturquoise", "afeeee"),
  ("paleturquoise1", "bbffff"),
  ("paleturquoise2", "aeeeee"),
  ("paleturquoise3", "96cdcd"),
  ("paleturquoise4", "668b8b"),
  ("palevioletred", "db7093"),
  ("palevioletred1", "ff82ab"),
  ("palevioletred2", "ee799f"),
  ("palevioletred3", "cd6889"),
  ("palevioletred4", "8b475d"),
  ("papayawhip", "ffefd5"),
  ("peachpuff1", "ffdab9"),
  ("peachpuff2", "eecbad"),
  ("peachpuff3", "cdaf95"),
  ("peachpuff4", "8b7765"),
  ("pink", "ffc0cb"),
  ("pink1", "ffb5c5"),
  ("pink2", "eea9b8"),
  ("pink3", "cd919e"),
  ("pink4", "8b636c"),
  ("plum", "dda0dd"),
  ("plum1", "ffbbff"),
  ("plum2", "eeaeee"),
  ("plum3", "cd96cd"),
  ("plum4", "8b668b"),
  ("powderblue", "b0e0e6"),
  ("purple", "a020f0"),
  ("rebeccapurple", "663399"),
  ("purple1", "9b30ff"),
  ("purple2", "912cee"),
  ("purple3", "7d26cd"),
  ("purple4", "551a8b"),
  ("red", "ff0000"),
  ("red1", "ff0000"),
  ("red2", "ee0000"),
  ("red3", "cd0000"),
  ("red4", "8b0000"),
  ("rosybrown", "bc8f8f"),
  ("rosybrown1", "ffc1c1"),
  ("rosybrown2", "eeb4b4"),
  ("rosybrown3", "cd9b9b"),
  ("rosybrown4", "8b6969"),
  ("royalblue", "4169e1"),
  ("royalblue1", "4876ff"),
  ("royalblue2", "436eee"),
  ("royalblue3", "3a5fcd"),
  ("royalblue4", "27408b"),
  ("saddlebrown", "8b4513"),
  ("salmon", "fa8072"),
  ("salmon1", "ff8c69"),
  ("salmon2", "ee8262"),
  ("salmon3", "cd7054"),
  ("salmon4", "8b4c39"),
  ("sandybrown", "f4a460"),
  ("seagreen1", "54ff9f"),
  ("seagreen2", "4eee94"),
  ("seagreen3", "43cd80"),
  ("seagreen4", "2e8b57"),
  ("seashell1", "fff5ee"),
  ("seashell2", "eee5de"),
  ("seashell3", "cdc5bf"),
  ("seashell4", "8b8682"),
  ("sienna", "a0522d"),
  ("sienna1", "ff8247"),
  ("sienna2", "ee7942"),
  ("sienna3", "cd6839"),
  ("sienna4", "8b4726"),
  ("silver", "c0c0c0"),
  ("skyblue", "87ceeb"),
  ("skyblue1", "87ceff"),
  ("skyblue2", "7ec0ee"),
  ("skyblue3", "6ca6cd"),
  ("skyblue4", "4a708b"),
  ("slateblue", "6a5acd"),
  ("slateblue1", "836fff"),
  ("slateblue2", "7a67ee"),
  ("slateblue3", "6959cd"),
  ("slateblue4", "473c8b"),
  ("slategray", "708090"),
  ("slategray1", "c6e2ff"),
  ("slategray2", "b9d3ee"),
  ("slategray3", "9fb6cd"),
  ("slategray4", "6c7b8b"),
  ("snow1", "fffafa"),
  ("snow2", "eee9e9"),
  ("snow3", "cdc9c9"),
  ("snow4", "8b8989"),
  ("springgreen1", "00ff7f"),
  ("springgreen2", "00ee76"),
  ("springgreen3", "00cd66"),
  ("springgreen4", "008b45"),
  ("steelblue", "4682b4"),
  ("steelblue1", "63b8ff"),
  ("steelblue2", "5cacee"),
  ("steelblue3", "4f94cd"),
  ("steelblue4", "36648b"),
  ("tan", "d2b48c"),
  ("tan1", "ffa54f"),
  ("tan2", "ee9a49"),
  ("tan3", "cd853f"),
  ("tan4", "8b5a2b"),
  ("teal", "008080"),
  ("thistle", "d8bfd8"),
  ("thistle1", "ffe1ff"),
  ("thistle2", "eed2ee"),
  ("thistle3", "cdb5cd"),
  ("thistle4", "8b7b8b"),
  ("tomato1", "ff6347"),
  ("tomato2", "ee5c42"),
  ("tomato3", "cd4f39"),
  ("tomato4", "8b3626"),
  ("turquoise", "40e0d0"),
  ("turquoise1", "00f5ff"),
  ("turquoise2", "00e5ee"),
  ("turquoise3", "00c5cd"),
  ("turquoise4", "00868b"),
  ("violet", "ee82ee"),
  ("violetred", "d02090"),
  ("violetred1", "ff3e96"),
  ("violetred2", "ee3a8c"),
  ("violetred3", "cd3278"),
  ("violetred4", "8b2252"),
  ("wheat", "f5deb3"),
  ("wheat1", "ffe7ba"),
  ("wheat2", "eed8ae"),
  ("wheat3", "cdba96"),
  ("wheat4", "8b7e66"),
  ("white", "ffffff"),
  ("whitesmoke", "f5f5f5"),
  ("yellow", "ffff00"),
  ("yellow1", "ffff00"),
  ("yellow2", "eeee00"),
  ("yellow3", "cdcd00"),
  ("yellow4", "8b8b00"),
  ("yellowgreen", "9acd32")]

/-- Value of a digit list, most significant first. -/
def digitsVal (cs : List Char) : Nat :=
  cs.foldl (fun a c => 10 * a + (c.toNat - 48)) 0

/-- Model of Rust `str::parse::<f64>` used by `DataAnalysis::size`, with
exact rational values in place of IEEE rounding (the claims depend only on
which scans succeed, not on rounding).  Accepts an optional sign, a decimal
mantissa with at least one digit, and an optional integer exponent; the
non-finite literals (`inf`, `nan`), which no finite size facet could carry,
are outside the model and map to `none`. -/
def parseF64 (s : String) : Option Rat :=
  let cs := s.toList
  let (sgn, cs1) :=
    match cs with
    | '+' :: t => ((1 : Rat), t)
    | '-' :: t => ((-1 : Rat), t)
    | _ => ((1 : Rat), cs)
  let (ip, cs2) := cs1.span Char.isDigit
  let (fp, cs3) :=
    match cs2 with
    | '.' :: t => t.span Char.isDigit
    | _ => (([] : List Char), cs2)
  if ip.isEmpty && fp.isEmpty then none
  else
    let mantissa : Rat := (digitsVal (ip ++ fp) : Rat) / ((10 : Rat) ^ fp.length)
    match cs3 with
    | [] => some (sgn * mantissa)
    | 'e' :: t =>
      (parseExp t).map fun e => sgn * mantissa * (10 : Rat) ^ e
    | 'E' :: t =>
      (parseExp t).map fun e => sgn * mantissa * (10 : Rat) ^ e
    | _ => none
where
  /-- Signed decimal exponent; the whole remainder must be consumed. -/
  parseExp (t : List Char) : Option Int :=
    let (esgn, t1) :=
      match t with
      | '+' :: u => ((1 : Int), u)
      | '-' :: u => ((-1 : Int), u)
      | _ => ((1 : Int), t)
    let (ed, t2) := t1.span Char.isDigit
    if ed.isEmpty || !t2.isEmpty then none
    else some (esgn * (digitsVal ed : Int))

/-- `DataAnalysis::font_name`: the `face` attribute of the first (outermost)
ancestor named `font` that has one (`find_map` = `List.findSome?`). -/
def DataAnalysis.font_name (d : HtmlFlatData) : Option String :=
  d.element.findSome? fun e => e.get_by_name_and_attribute "font" "face"

/-- `DataAnalysis::size`: the first ancestor whose `font`/`size` attribute
exists and parses as `f64`; a failed parse is skipped by `and_then ∘ ok`. -/
def DataAnalysis.size (d : HtmlFlatData) : Option Rat :=
  d.element.findSome? fun e =>
    (e.get_by_name_and_attribute "font" "size").bind parseF64

/-- Rust `str::to_uppercase`, which agrees with per-character ASCII
uppercasing on all data involved here; written over the character list so
that the kernel evaluates it. -/
def toUppercase (s : String) : String :=
  ⟨s.data.map Char.toUpper⟩

/-- Rust `str::trim_start_matches('#')`: remove the matching prefix
repeatedly, i.e. drop every leading `#`. -/
def trimStartHashes (s : String) : String :=
  ⟨s.data.dropWhile (· == '#')⟩

/-- The color-token resolution inside `DataAnalysis::color`: strip leading
`#`s, uppercase, look up case-insensitively in `COLOR_MAP` (substituting the
uppercased hex), else pass the token through (`or_else(|| Some(color))`). -/
def resolveColor (v : String) : String :=
  let color := toUppercase (trimStartHashes v)
  (COLOR_MAP.findSome? fun kv =>
    if toUppercase kv.1 = color then some (toUppercase kv.2) else none).getD color

/-- `DataAnalysis::color`: the Rust `flat_map` yields the `color` attributes
of `font` ancestors in outer-to-inner order, and the `find_map` closure
always returns `Some`, so the result is `resolveColor` of the first such
attribute.  (The local `result` variable in the source is dead.) -/
def DataAnalysis.color (d : HtmlFlatData) : Option String :=
  (d.element.findSome? fun e => e.get_by_name_and_attribute "font" "color").map resolveColor

/-- `DataAnalysis::is_tag`: some ancestor has the given name. -/
def DataAnalysis.is_tag (d : HtmlFlatData) (tag : String) : Bool :=
  d.element.any (·.has_name tag)

/-- `DataAnalysis::is_bold`. -/
def DataAnalysis.is_bold (d : HtmlFlatData) : Bool :=
  DataAnalysis.is_tag d "b" || DataAnalysis.is_tag d "strong"

/-- `DataAnalysis::is_italic`. -/
def DataAnalysis.is_italic (d : HtmlFlatData) : Bool :=
  DataAnalysis.is_tag d "i" || DataAnalysis.is_tag d "em"

/-- `DataAnalysis::is_underline`. -/
def DataAnalysis.is_underline (d : HtmlFlatData) : Bool :=
  DataAnalysis.is_tag d "u" || DataAnalysis.is_tag d "ins"

/-- `DataAnalysis::is_superscript`. -/
def DataAnalysis.is_superscript (d : HtmlFlatData) : Bool :=
  DataAnalysis.is_tag d "sup"

/-- `DataAnalysis::is_subscript`. -/
def DataAnalysis.is_subscript (d : HtmlFlatData) : Bool :=
  DataAnalysis.is_tag d "sub"

/-- `DataAnalysis::is_strikethrough`. -/
def DataAnalysis.is_strikethrough (d : HtmlFlatData) : Bool :=
  DataAnalysis.is_tag d "del"

/-- The `AnalysisMethod` trait: a pluggable policy mapping one flat run to
the nine formatting facets (plus `is_tag`). -/
structure AnalysisMethod where
  is_tag : HtmlFlatData → String → Bool
  font_name : HtmlFlatData → Option String
  size : HtmlFlatData → Option Rat
  color : HtmlFlatData → Option String
  is_bold : HtmlFlatData → Bool
  is_italic : HtmlFlatData → Bool
  is_underline : HtmlFlatData → Bool
  is_superscript : HtmlFlatData → Bool
  is_subscript : HtmlFlatData → Bool
  is_strikethrough : HtmlFlatData → Bool

/-- The default policy `DataAnalysis`, bundled as an `AnalysisMethod`. -/
def DataAnalysis : AnalysisMethod where
  is_tag := DataAnalysis.is_tag
  font_name := DataAnalysis.font_name
  size := DataAnalysis.size
  color := DataAnalysis.color
  is_bold := DataAnalysis.is_bold
  is_italic := DataAnalysis.is_italic
  is_underline := DataAnalysis.is_underline
  is_superscript := DataAnalysis.is_superscript
  is_subscript := DataAnalysis.is_subscript
  is_strikethrough := DataAnalysis.is_strikethrough

/-- Modelled from the spec: `structs::UnderlineValues` is not under `src/`;
the conversion only ever sets the `Single` variant. -/
inductive UnderlineValues where
  | single
  deriving Repr, DecidableEq

/-- Modelled from the spec: `structs::VerticalAlignmentRunValues` is not
under `src/`; the conversion sets `Superscript` or `Subscript`. -/
inductive VerticalAlignmentRunValues where
  | superscript
  | subscript
  deriving Repr, DecidableEq

/-- Modelled from the spec: the font descriptor (`structs::Font` is not
under `src/`).  Per spec §6 it supports independently settable optional
facets, with unset distinguishable from every concrete value; each setter
used by `make_rich_text` (`set_name`, `set_size`, `set_color`, `set_bold`,
`set_italic`, `set_strikethrough`, `get_font_underline_mut().set_val`,
`get_vertical_text_alignment_mut().set_val`) sets exactly one facet.  The
color facet carries the ARGB string given to `Color::set_argb`. -/
structure Font where
  name : Option String := none
  size : Option Rat := none
  color : Option String := none
  bold : Option Bool := none
  italic : Option Bool := none
  underline : Option UnderlineValues := none
  vertical_text_alignment : Option VerticalAlignmentRunValues := none
  strikethrough : Option Bool := none
  deriving Repr, DecidableEq

/-- Modelled from the spec: one output run (`structs::TextElement` is not
under `src/`): its text and optional run-properties font, set by `set_text`
and `set_run_properties`. -/
structure TextElement where
  text : String := ""
  run_properties : Option Font := none
  deriving Repr, DecidableEq

/-- Modelled from the spec: `structs::RichText` is the ordered run list,
extended by `add_rich_text_elements`. -/
structure RichText where
  rich_text_elements : List TextElement := []
  deriving Repr, DecidableEq

/-- The per-run body of the loop in `make_rich_text`
(`src/helper/html.rs`, lines 112–165): evaluate the nine facets through the
policy and apply a setter only under the corresponding `if let Some` /
`if`-true guard, in source order (so `sub` overwrites `sup` in the shared
vertical-alignment field). -/
def makeTextElement (method : AnalysisMethod) (d : HtmlFlatData) : TextElement :=
  let font : Font := {}
  let font := match method.font_name d with
    | some v => { font with name := some v }
    | none => font
  let font := match method.size d with
    | some v => { font with size := some v }
    | none => font
  let font := match method.color d with
    | some v => { font with color := some v }
    | none => font
  let font := if method.is_bold d then { font with bold := some (method.is_bold d) } else font
  let font := if method.is_italic d then { font with italic := some (method.is_italic d) } else font
  let font := if method.is_underline d then
      { font with underline := some UnderlineValues.single } else font
  let font := if method.is_superscript d then
      { font with vertical_text_alignment := some VerticalAlignmentRunValues.superscript }
    else font
  let font := if method.is_subscript d then
      { font with vertical_text_alignment := some VerticalAlignmentRunValues.subscript }
    else font
  let font := if method.is_strikethrough d then
      { font with strikethrough := some (method.is_strikethrough d) } else font
  { text := d.text, run_properties := some font }

/-- `make_rich_text` (`src/helper/html.rs`, lines 109–168): one output run
per flat run, pushed in order. -/
def make_rich_text (html_flat_data_list : List HtmlFlatData) (method : AnalysisMethod) :
    RichText :=
  { rich_text_elements := html_flat_data_list.map (makeTextElement method) }

/-- The tree produced by the external `html_parser::Dom::parse`
collaborator on success. -/
structure Dom where
  children : List Node

/-- Opaque stand-in for `html_parser::Error`, the external parser's error. -/
structure ParseError where
  msg : String
  deriving Repr, DecidableEq

/-- `html_to_richtext_custom` (`src/helper/html.rs`, lines 41–49), over the
outcome of the external parser call `Dom::parse(html)`: the `?` operator
propagates a parse error unchanged; otherwise the conversion is the total
composition of `read_node` (from the root, with an empty ancestor stack)
and `make_rich_text`. -/
def html_to_richtext_custom (parsed : Except ParseError Dom)
    (method : AnalysisMethod) : Except ParseError RichText :=
  match parsed with
  | .error e => .error e
  | .ok dom => .ok (make_rich_text (read_node dom.children []) method)

/-- `html_to_richtext`: the default-policy wrapper. -/
def html_to_richtext (parsed : Except ParseError Dom) : Except ParseError RichText :=
  html_to_richtext_custom parsed DataAnalysis

/-- Whether a conversion outcome is a success (`Result::is_ok`). -/
def exceptIsOk {ε α : Type} : Except ε α → Bool
  | .ok _ => true
  | .error _ => false

/-! ### Spec-side definitions

These render the spec's/claims' wording, for comparison with the
definitions above that embed the source. -/

/-- The Named Color Table lookup as the spec words it: compare the probe
token and each stored key in a single (upper) case; on a hit substitute the
stored hex value, uppercased. -/
def namedColorLookup (token : String) : Option String :=
  (COLOR_MAP.find? fun kv => toUppercase kv.1 == token).map fun kv => toUppercase kv.2

/-- Strip exactly one leading `#` if present (claim C2's wording). -/
def stripOneHash (s : String) : String :=
  match s.data with
  | '#' :: t => ⟨t⟩
  | _ => s

/-- The color recipe exactly as claim C2 words it: strip one leading `#` if
present, uppercase the remainder, look it up case-insensitively; if found,
the table's hex uppercased, else the token unchanged. -/
def colorClaimRecipe (v : String) : String :=
  let token := toUppercase (stripOneHash v)
  (namedColorLookup token).getD token

/-- The color recipe amended only in the stripping step: strip every
leading `#`. -/
def colorAmendedRecipe (v : String) : String :=
  let token := toUppercase (trimStartHashes v)
  (namedColorLookup token).getD token

/-- The size recipe exactly as claim C6 words it: the `size` attribute of
the first (outermost) `font` ancestor that has one, parsed; when that
attribute is absent or unparsable the facet is absent. -/
def sizeClaimRecipe (d : HtmlFlatData) : Option Rat :=
  (d.element.findSome? fun e => e.get_by_name_and_attribute "font" "size").bind parseF64

/-! ### Concrete fixtures -/

/-- `<font color="red">` as an ancestor entry. -/
def fontRed : HfdElement := ⟨"font", [("color", "red")], []⟩

/-- `<font color="blue">` as an ancestor entry. -/
def fontBlue : HfdElement := ⟨"font", [("color", "blue")], []⟩

/-- Parse tree of `<font color="red"><font color="blue">x</font></font>`. -/
def redBlueNodes : List Node :=
  [Node.element "font" [("color", some "red")] []
    [Node.element "font" [("color", some "blue")] [] [Node.text "x"]]]

/-- The single flat run the red/blue fragment flattens to. -/
def redBlueRun : HtmlFlatData := ⟨"x", [fontRed, fontBlue]⟩

/-- `<font class="test" color="#48D1CC">` as an ancestor entry. -/
def fontTeal : HfdElement := ⟨"font", [("color", "#48D1CC")], ["test"]⟩

/-- `<b>` as an ancestor entry. -/
def bElem : HfdElement := ⟨"b", [], []⟩

/-- Parse tree of the regression fixture
`<font color="red">test</font><br><font class="test" color="#48D1CC">TE<b>S</b>T<br/>TEST</font>`. -/
def fixtureNodes : List Node :=
  [Node.element "font" [("color", some "red")] [] [Node.text "test"],
   Node.element "br" [] [] [],
   Node.element "font" [("color", some "#48D1CC")] ["test"]
     [Node.text "TE",
      Node.element "b" [] [] [Node.text "S"],
      Node.text "T",
      Node.element "br" [] [] [],
      Node.text "TEST"]]

/-- The fixture as a successful parse outcome. -/
def fixtureDom : Dom := ⟨fixtureNodes⟩

/-- The flat runs the fixture flattens to. -/
def fixtureRuns : List HtmlFlatData :=
  [⟨"test", [fontRed]⟩, ⟨"\n", []⟩, ⟨"TE", [fontTeal]⟩,
   ⟨"S", [fontTeal, bElem]⟩, ⟨"T\nTEST", [fontTeal]⟩]

/-- A run under a single `font` whose `color` attribute has two leading
hash marks. -/
def hashRun : HtmlFlatData := ⟨"x", [⟨"font", [("color", "##ABCDEF")], []⟩]⟩

/-- Outermost `font` ancestor with an unparsable `size` attribute. -/
def sizeOuterUnparsable : HfdElement := ⟨"font", [("size", "x")], []⟩

/-- Inner `font` ancestor with a parsable `size` attribute. -/
def sizeInnerParsable : HfdElement := ⟨"font", [("size", "12.5")], []⟩

/-- A run nested in an unparsable-size `font` inside which sits a
parsable-size `font`. -/
def sizeCexRun : HtmlFlatData := ⟨"t", [sizeOuterUnparsable, sizeInnerParsable]⟩

/-- Parse tree of `<b>a</b><br><b>b</b>`. -/
def bBrBNodes : List Node :=
  [Node.element "b" [] [] [Node.text "a"],
   Node.element "br" [] [] [],
   Node.element "b" [] [] [Node.text "b"]]

/-! ### Helper lemmas -/

/-- If every element of a prefix maps to `none`, `findSome?` over the whole
list continues past the prefix. -/
theorem findSome?_append_prefix_none {α β : Type} (f : α → Option β) (l1 l2 : List α)
    (h1 : ∀ x ∈ l1, f x = none) :
    (l1 ++ l2).findSome? f = l2.findSome? f := by
  induction l1 with
  | nil => simp
  | cons a t ih =>
    have ha : f a = none := h1 a (by simp)
    simp only [List.cons_append, List.findSome?_cons, ha]
    exact ih fun x hx => h1 x (by simp [hx])

/-- The guarded `find_map` over the color table equals the spec's
find-then-substitute lookup. -/
theorem findSome?_guard_eq_lookup (c : String) (l : List (String × String)) :
    (l.findSome? fun kv => if toUppercase kv.1 = c then some (toUppercase kv.2) else none) =
      ((l.find? fun kv => toUppercase kv.1 == c).map fun kv => toUppercase kv.2) := by
  induction l with
  | nil => simp
  | cons kv t ih =>
    by_cases h : toUppercase kv.1 = c <;>
      simp [List.findSome?_cons, List.find?_cons, h, ih]

/-- `resolveColor` is exactly the amended recipe. -/
theorem resolveColor_eq_amended (v : String) : resolveColor v = colorAmendedRecipe v := by
  unfold resolveColor colorAmendedRecipe namedColorLookup
  simp only [findSome?_guard_eq_lookup]

/-- The font descriptor `makeTextElement` builds, written as one record. -/
def fontOfFacets (m : AnalysisMethod) (d : HtmlFlatData) : Font where
  name := m.font_name d
  size := m.size d
  color := m.color d
  bold := if m.is_bold d then some (m.is_bold d) else none
  italic := if m.is_italic d then some (m.is_italic d) else none
  underline := if m.is_underline d then some UnderlineValues.single else none
  vertical_text_alignment :=
    if m.is_subscript d then some VerticalAlignmentRunValues.subscript
    else if m.is_superscript d then some VerticalAlignmentRunValues.superscript
    else none
  strikethrough := if m.is_strikethrough d then some (m.is_strikethrough d) else none

/-- Characterization of the sequential setter chain in `makeTextElement`. -/
theorem makeTextElement_eq (m : AnalysisMethod) (d : HtmlFlatData) :
    makeTextElement m d = ⟨d.text, some (fontOfFacets m d)⟩ := by
  unfold makeTextElement fontOfFacets
  rcases hn : m.font_name d with _ | v <;>
    rcases hs : m.size d with _ | sv <;>
    rcases hc : m.color d with _ | cv <;>
    simp only [hn, hs, hc] <;>
    by_cases h1 : m.is_bold d <;> by_cases h2 : m.is_italic d <;>
    by_cases h3 : m.is_underline d <;> by_cases h4 : m.is_superscript d <;>
    by_cases h5 : m.is_subscript d <;> by_cases h6 : m.is_strikethrough d <;>
    simp [h1, h2, h3, h4, h5, h6]

/-- Every run the flattener loop emits has non-empty text, whatever the
pending accumulator: both flush sites are guarded by `text != ""`. -/
theorem readNodes_text_ne (ns : List Node) (p : List HfdElement) (acc : String) :
    ∀ r ∈ readNodes ns p acc, r.text ≠ "" := by
  induction ns, p, acc using readNodes.induct with
  | case1 parent =>
    intro r hr
    simp [readNodes] at hr
  | case2 parent acc h =>
    intro r hr
    simp [readNodes, h] at hr
    simp [hr, h]
  | case3 s rest parent acc ih =>
    intro r hr
    rw [readNodes] at hr
    exact ih r hr
  | case4 attrs classes children rest parent acc ih =>
    intro r hr
    simp only [readNodes, if_pos rfl] at hr
    exact ih r hr
  | case5 name attrs classes children rest parent acc hbr ih1 ih2 =>
    intro r hr
    by_cases hacc : acc = "" <;> simp only [readNodes, hbr, hacc, if_neg, if_pos,
      if_false, if_true, List.mem_append, List.mem_singleton, List.nil_append,
      List.not_mem_nil, false_or, ite_true, ite_false] at hr
    · rcases hr with h | h
      · exact ih1 r h
      · exact ih2 r h
    · rcases hr with (h | h) | h
      · simp [h, hacc]
      · exact ih1 r h
      · exact ih2 r h
  | case6 rest parent acc ih =>
    intro r hr
    rw [readNodes] at hr
    exact ih r hr

/-- Concrete evaluation of the flattener on the regression fixture. -/
theorem fixture_read_node_eq : read_node fixtureNodes [] = fixtureRuns := by
  simp [read_node, readNodes, fixtureNodes, fixtureRuns, fontRed, fontTeal, bElem,
    convAttributes]

/-! ### Claim theorems -/

/-- C4: `html_to_richtext` / `html_to_richtext_custom` fail exactly when the
external parser failed: a parse error is propagated as the sole terminal
error with no partial output, and on parse success the rest of the
conversion (`read_node` from the root plus `make_rich_text`) is a total
function and always yields a result. -/
theorem html_error_iff_parse_error :
    ∀ (method : AnalysisMethod) (e : ParseError) (dom : Dom)
      (parsed : Except ParseError Dom),
      exceptIsOk (html_to_richtext_custom parsed method) = exceptIsOk parsed ∧
      html_to_richtext_custom (Except.error e) method = Except.error e ∧
      html_to_richtext_custom (Except.ok dom) method =
        Except.ok (make_rich_text (read_node dom.children []) method) ∧
      html_to_richtext parsed = html_to_richtext_custom parsed DataAnalysis := by
  intro method e dom parsed
  refine ⟨?_, rfl, rfl, rfl⟩
  cases parsed <;> rfl

/-- C5: a `br` element never starts a new run: whatever its attributes,
classes or children, the flattener just appends one line separator to the
accumulator and continues with the following siblings; in particular
`"a<br>b"` flattens to the single run `"a\nb"`. -/
theorem br_is_textual :
    (∀ (attrs : List (String × Option String)) (classes : List String)
        (children rest : List Node) (parent : List HfdElement) (acc : String),
        readNodes (Node.element "br" attrs classes children :: rest) parent acc =
          readNodes rest parent (acc ++ "\n")) ∧
    read_node [Node.text "a", Node.element "br" [] [] [], Node.text "b"] [] =
      [{ text := "a\nb", element := [] }] := by
  constructor
  · intro attrs classes children rest parent acc
    rw [readNodes]
    simp
  · simp [read_node, readNodes]

/-- C10: whenever a `br` is followed at the same sibling level by a
non-`br` element — under any inherited ancestor stack, pending accumulator
text and element shape — the pending text plus the `br`'s line separator is
flushed as its own run carrying exactly the inherited (parent) ancestor
stack, not the following element's; in particular `<b>a</b><br><b>b</b>`
flattens to the runs `"a"`, `"\n"`, `"b"` whose middle run has an empty
ancestor stack, so the default policy sets no facet on it. -/
theorem br_flush_inherits_parent_context
    (parent : List HfdElement) (acc : String)
    (battrs attrs : List (String × Option String))
    (bclasses classes : List String)
    (bchildren children rest : List Node)
    (name : String) (hname : name ≠ "br") :
    readNodes (Node.element "br" battrs bclasses bchildren ::
        Node.element name attrs classes children :: rest) parent acc =
      { text := acc ++ "\n", element := parent } ::
        (readNodes children (parent ++ [⟨name, convAttributes attrs, classes⟩]) "" ++
          readNodes rest parent "") ∧
    read_node bBrBNodes [] = [⟨"a", [bElem]⟩, ⟨"\n", []⟩, ⟨"b", [bElem]⟩] ∧
    makeTextElement DataAnalysis ⟨"\n", []⟩ =
      { text := "\n", run_properties := some {} } := by
  refine ⟨?_, ?_, ?_⟩
  · have hne : acc ++ "\n" ≠ "" := by
      intro h
      have hd := congrArg String.data h
      simp [String.data_append] at hd
    simp [readNodes, hname, hne]
  · simp [read_node, readNodes, bBrBNodes, bElem, convAttributes]
  · decide

/-- Witness for C10, under the non-empty inherited stack `[fontRed]`: the
flushed separator run carries exactly the inherited `font` ancestor, while
the following `b` element's run carries the extended stack. -/
theorem br_flush_inherits_parent_context_witness :
    readNodes [Node.element "br" [] [] [], Node.element "b" [] [] [Node.text "b"]]
        [fontRed] "" =
      [⟨"\n", [fontRed]⟩, ⟨"b", [fontRed, bElem]⟩] := by
  rw [(br_flush_inherits_parent_context [fontRed] "" [] [] [] [] [] [Node.text "b"] []
    "b" (by decide)).1]
  simp [readNodes, convAttributes, bElem]

/-- C1: when several `font` ancestors carry the relevant attribute, the
default policy's `font_name` and `color` facets come from the outermost
matching ancestor: any matching ancestor all of whose outer predecessors
fail to match decides the facet. -/
theorem font_outermost_wins (d : HtmlFlatData) (l1 l2 : List HfdElement)
    (e : HfdElement) (hsplit : d.element = l1 ++ e :: l2) :
    (∀ v : String,
        (∀ x ∈ l1, x.get_by_name_and_attribute "font" "face" = none) →
        e.get_by_name_and_attribute "font" "face" = some v →
        DataAnalysis.font_name d = some v) ∧
    (∀ v : String,
        (∀ x ∈ l1, x.get_by_name_and_attribute "font" "color" = none) →
        e.get_by_name_and_attribute "font" "color" = some v →
        DataAnalysis.color d = some (resolveColor v)) := by
  constructor
  · intro v h1 he
    unfold DataAnalysis.font_name
    rw [hsplit, findSome?_append_prefix_none _ _ _ h1]
    simp [List.findSome?_cons, he]
  · intro v h1 he
    unfold DataAnalysis.color
    rw [hsplit, findSome?_append_prefix_none _ _ _ h1]
    simp [List.findSome?_cons, he]

/-- Witness for C1, at the claim's own example
`<font color="red"><font color="blue">x</font></font>`: the fragment
flattens to one run under both fonts, and the run's color facet is red's
hex `FF0000`, not blue's. -/
theorem font_outermost_wins_witness :
    read_node redBlueNodes [] = [redBlueRun] ∧
    DataAnalysis.color redBlueRun = some "FF0000" := by
  constructor
  · simp [read_node, readNodes, redBlueNodes, redBlueRun, fontRed, fontBlue,
      convAttributes]
  · have h := (font_outermost_wins redBlueRun [] [fontBlue] fontRed rfl).2 "red"
      (by simp) (by decide)
    rw [h]
    decide

/-- C2 counterexample: the code strips every leading `#`
(`trim_start_matches`), not one, so on the color token `"##ABCDEF"` the
facet is `"ABCDEF"` while the claim's strip-one-`#` recipe yields
`"#ABCDEF"`. -/
theorem color_one_hash_counterexample :
    DataAnalysis.color hashRun = some "ABCDEF" ∧
    colorClaimRecipe "##ABCDEF" = "#ABCDEF" ∧
    DataAnalysis.color hashRun ≠ some (colorClaimRecipe "##ABCDEF") := by
  refine ⟨by decide, by decide, by decide⟩

/-- C2 amended: the color facet applies the claim's recipe with `every`
leading `#` stripped (uppercase, case-insensitive table lookup substituting
the uppercased hex, unknown tokens passed through) to the `color` attribute
of the first `font` ancestor that has one; `"RED"` and `"red"` both resolve
to `"FF0000"`, `"#ABCDEF"` to `"ABCDEF"`, and the lookup never fails: the
facet is present whenever such an attribute exists. -/
theorem color_resolution_amended (d : HtmlFlatData) :
    DataAnalysis.color d =
      (d.element.findSome? fun e => e.get_by_name_and_attribute "font" "color").map
        colorAmendedRecipe ∧
    colorAmendedRecipe "RED" = "FF0000" ∧
    colorAmendedRecipe "red" = "FF0000" ∧
    colorAmendedRecipe "#ABCDEF" = "ABCDEF" ∧
    (∀ e ∈ d.element, ∀ v : String,
        e.get_by_name_and_attribute "font" "color" = some v →
        (DataAnalysis.color d).isSome = true) := by
  refine ⟨?_, by decide, by decide, by decide, ?_⟩
  · unfold DataAnalysis.color
    rw [show resolveColor = colorAmendedRecipe from funext resolveColor_eq_amended]
  · intro e hmem v hv
    unfold DataAnalysis.color
    have h : (d.element.findSome? fun e =>
        e.get_by_name_and_attribute "font" "color").isSome = true := by
      rw [List.findSome?_isSome_iff]
      exact ⟨e, hmem, by simp [hv]⟩
    simpa using h

/-- Witness for C2's amended claim, on the red/blue run: the facet follows
the amended recipe and is present because `fontRed` carries a color. -/
theorem color_resolution_amended_witness :
    DataAnalysis.color redBlueRun =
      (redBlueRun.element.findSome? fun e =>
        e.get_by_name_and_attribute "font" "color").map colorAmendedRecipe ∧
    (DataAnalysis.color redBlueRun).isSome = true := by
  obtain ⟨h1, -, -, -, h5⟩ := color_resolution_amended redBlueRun
  exact ⟨h1, h5 fontRed (by decide) "red" (by decide)⟩

/-- C6 counterexample: with an outer `font size="x"` (unparsable) around a
`font size="12.5"`, the claim's recipe — size attribute of the first `font`
ancestor that has one, absent when unparsable — yields no facet, but the
code's scan skips the failed parse and takes the inner value, so the facet
is present. -/
theorem size_skips_unparsable_counterexample :
    sizeClaimRecipe sizeCexRun = none ∧
    (DataAnalysis.size sizeCexRun).isSome = true := by
  refine ⟨by decide, by decide⟩

/-- C6 amended: the size facet comes from the outermost `font` ancestor
whose `size` attribute is present `and` parses as a floating-point number —
ancestors with an absent or unparsable attribute are skipped — and when no
ancestor's attribute parses the facet is absent (an empty optional), never
an error. -/
theorem size_outermost_parsable (d : HtmlFlatData) :
    (∀ (l1 l2 : List HfdElement) (e : HfdElement),
        d.element = l1 ++ e :: l2 →
        (∀ x ∈ l1, (x.get_by_name_and_attribute "font" "size").bind parseF64 = none) →
        ((e.get_by_name_and_attribute "font" "size").bind parseF64).isSome = true →
        DataAnalysis.size d =
          (e.get_by_name_and_attribute "font" "size").bind parseF64) ∧
    ((∀ x ∈ d.element,
        (x.get_by_name_and_attribute "font" "size").bind parseF64 = none) →
        DataAnalysis.size d = none) := by
  constructor
  · intro l1 l2 e hsplit hskip hok
    unfold DataAnalysis.size
    rw [hsplit, findSome?_append_prefix_none _ _ _ hskip]
    exact List.findSome?_cons_of_isSome _ hok
  · intro h
    unfold DataAnalysis.size
    exact List.findSome?_eq_none_iff.mpr h

/-- Witness for C6's amended claim: on the unparsable-outer fixture the
facet equals the inner ancestor's parse, and with no `font` ancestors the
facet is absent. -/
theorem size_outermost_parsable_witness :
    DataAnalysis.size sizeCexRun =
      (sizeInnerParsable.get_by_name_and_attribute "font" "size").bind parseF64 ∧
    DataAnalysis.size ⟨"t", []⟩ = none := by
  obtain ⟨h1, -⟩ := size_outermost_parsable sizeCexRun
  obtain ⟨-, h2⟩ := size_outermost_parsable ⟨"t", []⟩
  exact ⟨h1 [sizeOuterUnparsable] [] sizeInnerParsable rfl (by decide) (by decide),
    h2 (by simp)⟩

/-- C3: `make_rich_text` yields exactly one run per input flat run, in the
same order and with the same text, and sets only the facets the policy
explicitly produced: a false boolean facet leaves its field unset (never an
explicit `false`), absent `sup`/`sub` leave the vertical alignment unset,
and the name/size/color fields are exactly the policy's optionals. -/
theorem make_rich_text_structure (l : List HtmlFlatData) (m : AnalysisMethod) :
    (make_rich_text l m).rich_text_elements.length = l.length ∧
    (make_rich_text l m).rich_text_elements.map TextElement.text =
      l.map HtmlFlatData.text ∧
    ∀ (i : Nat) (d : HtmlFlatData), l[i]? = some d →
      ∃ te : TextElement,
        (make_rich_text l m).rich_text_elements[i]? = some te ∧
        te.text = d.text ∧
        ∃ f : Font, te.run_properties = some f ∧
          f.name = m.font_name d ∧
          f.size = m.size d ∧
          f.color = m.color d ∧
          (m.is_bold d = false → f.bold = none) ∧ f.bold ≠ some false ∧
          (m.is_italic d = false → f.italic = none) ∧ f.italic ≠ some false ∧
          (m.is_underline d = false → f.underline = none) ∧
          (m.is_superscript d = false → m.is_subscript d = false →
            f.vertical_text_alignment = none) ∧
          (m.is_strikethrough d = false → f.strikethrough = none) ∧
          f.strikethrough ≠ some false := by
  refine ⟨by simp [make_rich_text], ?_, ?_⟩
  · simp [make_rich_text, makeTextElement_eq]
  · intro i d hd
    refine ⟨makeTextElement m d, ?_, ?_, fontOfFacets m d, ?_,
      rfl, rfl, rfl, ?_, ?_, ?_, ?_, ?_, ?_, ?_, ?_⟩
    · simp [make_rich_text, hd]
    · rw [makeTextElement_eq]
    · rw [makeTextElement_eq]
    · intro h; simp [fontOfFacets, h]
    · by_cases h : m.is_bold d <;> simp [fontOfFacets, h]
    · intro h; simp [fontOfFacets, h]
    · by_cases h : m.is_italic d <;> simp [fontOfFacets, h]
    · intro h; simp [fontOfFacets, h]
    · intro h1 h2; simp [fontOfFacets, h1, h2]
    · intro h; simp [fontOfFacets, h]
    · by_cases h : m.is_strikethrough d <;> simp [fontOfFacets, h]

/-- Witness for C3, on a single bare run under the default policy: the
output has one run, text `"x"`, and a fully unset font descriptor. -/
theorem make_rich_text_structure_witness :
    (make_rich_text [⟨"x", []⟩] DataAnalysis).rich_text_elements.length = 1 ∧
    ∃ te : TextElement,
      (make_rich_text [⟨"x", []⟩] DataAnalysis).rich_text_elements[0]? = some te ∧
      te.text = "x" ∧
      ∃ f : Font, te.run_properties = some f ∧ f.bold = none ∧ f.name = none := by
  obtain ⟨hlen, -, hidx⟩ := make_rich_text_structure [⟨"x", []⟩] DataAnalysis
  obtain ⟨te, h1, h2, f, h3, hname, -, -, hbold, -⟩ := hidx 0 ⟨"x", []⟩ rfl
  exact ⟨hlen, te, h1, h2, f, h3, hbold rfl, by rw [hname]; decide⟩

/-- C7 counterexample: the fixture
`<font color="red">test</font><br><font class="test" color="#48D1CC">TE<b>S</b>T<br/>TEST</font>`
flattens to the five runs `"test"`, `"\n"`, `"TE"`, `"S"`, `"T\nTEST"`; the
last run spans the inner `br` (its text contains the line separator with
text on both sides), so run boundaries do `not` occur at each `br`
occurrence — the inner `br` is textual, exactly as claim C5 states. -/
theorem fixture_br_not_boundary_counterexample :
    (read_node fixtureNodes []).map HtmlFlatData.text =
      ["test", "\n", "TE", "S", "T\nTEST"] ∧
    ∃ r ∈ read_node fixtureNodes [], '\n' ∈ r.text.data ∧ r.text ≠ "\n" := by
  rw [fixture_read_node_eq]
  refine ⟨by decide, ⟨"T\nTEST", [fontTeal]⟩, by decide, by decide, by decide⟩

/-- C7 amended: conversion of the fixture succeeds and produces exactly the
five runs `"test"`, `"\n"`, `"TE"`, `"S"`, `"T\nTEST"` in document order,
with boundaries at element opens/closes only (a `br` is textual; the
top-level `br`'s separator becomes its own run only because the following
`font` open flushes it), and the expected per-run facets. -/
theorem fixture_runs_amended :
    html_to_richtext (Except.ok fixtureDom) = Except.ok
      { rich_text_elements := [
          { text := "test", run_properties := some { color := some "FF0000" } },
          { text := "\n", run_properties := some {} },
          { text := "TE", run_properties := some { color := some "48D1CC" } },
          { text := "S",
            run_properties := some { color := some "48D1CC", bold := some true } },
          { text := "T\nTEST",
            run_properties := some { color := some "48D1CC" } }] } := by
  have h2 : make_rich_text (read_node fixtureDom.children []) DataAnalysis =
      { rich_text_elements := [
          { text := "test", run_properties := some { color := some "FF0000" } },
          { text := "\n", run_properties := some {} },
          { text := "TE", run_properties := some { color := some "48D1CC" } },
          { text := "S",
            run_properties := some { color := some "48D1CC", bold := some true } },
          { text := "T\nTEST",
            run_properties := some { color := some "48D1CC" } }] } := by
    rw [show fixtureDom.children = fixtureNodes from rfl, fixture_read_node_eq]
    decide
  simp [html_to_richtext, html_to_richtext_custom, h2]

/-- C9 counterexample: the Named Color Table has no entry for `"gray0"` nor
for `"gray96"`, so it does not contain every numbered gray shade keyword
`"gray0"` through `"gray99"`. -/
theorem gray_table_counterexample :
    COLOR_MAP.lookup "gray0" = none ∧
    COLOR_MAP.lookup "gray96" = none ∧
    ¬ (∀ n : Nat, n ≤ 99 →
        (COLOR_MAP.lookup ("gray" ++ toString n)).isSome = true) := by
  refine ⟨by decide, by decide, fun h => ?_⟩
  exact absurd (h 0 (by omega)) (by decide)

/-- C9 amended: the table contains `"gray1"` through `"gray99"` except
`"gray96"` (and no `"gray0"`), and its idiosyncratic shorthand entries are
verbatim: the bare keyword `"light"` maps to `"eedd82"`, so a font color
attribute `"light"` resolves to `"EEDD82"`. -/
theorem gray_table_amended :
    ((List.range 100).all fun n =>
        decide (n = 0) || decide (n = 96) ||
          (COLOR_MAP.lookup ("gray" ++ toString n)).isSome) = true ∧
    COLOR_MAP.lookup "gray0" = none ∧
    COLOR_MAP.lookup "gray96" = none ∧
    COLOR_MAP.lookup "light" = some "eedd82" ∧
    resolveColor "light" = "EEDD82" := by
  refine ⟨by decide, by decide, by decide, by decide, by decide⟩

/-- C8: the flattener never emits a zero-length run — every emitted run has
non-empty text, an empty sibling list yields the empty run list, and an
element with neither text descendants nor children (for example an empty
tag carrying only attributes and classes) contributes no run at all. -/
theorem read_node_no_empty_runs :
    (∀ (node_list : List Node) (parent : List HfdElement) (r : HtmlFlatData),
        r ∈ read_node node_list parent → r.text ≠ "") ∧
    (∀ parent : List HfdElement, read_node [] parent = []) ∧
    read_node [Node.element "p" [("class", some "x")] ["x"] []] [] = [] := by
  refine ⟨?_, ?_, ?_⟩
  · intro ns parent r hr
    exact readNodes_text_ne ns parent "" r hr
  · intro parent
    simp [read_node, readNodes]
  · simp [read_node, readNodes]

/-- Witness for C8, on the sibling list `[text "a"]`: the single produced
run is a member of the output and indeed has non-empty text. -/
theorem read_node_no_empty_runs_witness :
    (⟨"a", []⟩ : HtmlFlatData) ∈ read_node [Node.text "a"] [] ∧
    (⟨"a", []⟩ : HtmlFlatData).text ≠ "" := by
  have hmem : (⟨"a", []⟩ : HtmlFlatData) ∈ read_node [Node.text "a"] [] := by
    simp [read_node, readNodes]
  exact ⟨hmem, read_node_no_empty_runs.1 [Node.text "a"] [] ⟨"a", []⟩ hmem⟩

end UmyaHtml
